import Mathlib

/-
Verification development for the ZenTH ISO Standards Coach repository
(src/main.py).  The repository configures a two-level multi-agent pipeline:
an inner round-robin standards team (coach + reviewer, stopping on the text
"APPROVE" or after 6 messages), wrapped as a single SocietyOfMindAgent
participant of an outer team (SoM + formatter, max_turns = 2), plus a CLI
front end (environment handling, interactive loop, single-query mode).

The orchestration core (round-robin scheduler, termination conditions,
SocietyOfMindAgent) lives in the external autogen library, not in src/;
those parts are modelled from the spec, as marked on each definition.
The CLI-level definitions are translated directly from src/main.py.
-/

/-- A chat message: the name of the agent that authored it and its text.
A transcript is a list of messages in append order; the list index plays
the role of the monotonic sequence number. -/
structure Message where
  source : String
  content : String
deriving DecidableEq

/-- Does the character list `pat` occur at the head of the first list? -/
def startsWithL : List Char → List Char → Bool
  | _, [] => true
  | [], _ :: _ => false
  | a :: as, b :: bs => (a == b) && startsWithL as bs

/-- Case-sensitive substring occurrence on character lists. -/
def containsSubL : List Char → List Char → Bool
  | [], pat => pat.isEmpty
  | a :: as, pat => startsWithL (a :: as) pat || containsSubL as pat

/-- Case-sensitive exact-substring test on strings, the matching used by
TextMentionTermination. -/
def containsSubstr (s pat : String) : Bool :=
  containsSubL s.data pat.data

/-- Modelled from the spec: the termination-condition algebra (leaf
conditions MaxMessages / TextMention and the AND/OR combinators), whose
implementation lives in the external autogen library
(autogen_agentchat.conditions), not in src/. -/
inductive TermCond where
  | maxMessages (n : Nat)
  | textMention (keyword : String)
  | orC (a b : TermCond)
  | andC (a b : TermCond)

/-- Modelled from the spec: evaluation of a termination condition is a pure
predicate of the transcript snapshot (no hidden counters).  MaxMessages n is
true once the transcript length is at least n; TextMention k is true once
any message content contains k as a case-sensitive substring. -/
def evalCond : TermCond → List Message → Bool
  | .maxMessages n, tr => decide (n ≤ tr.length)
  | .textMention kw, tr => tr.any (fun m => containsSubstr m.content kw)
  | .orC a b, tr => evalCond a tr || evalCond b tr
  | .andC a b, tr => evalCond a tr && evalCond b tr

/-- Evaluation of an optional termination condition (a team constructed
without one, like the final team in src/main.py, never stops on a
condition). -/
def evalCondO : Option TermCond → List Message → Bool
  | none, _ => false
  | some c, tr => evalCond c tr

/-- The shared reasoning-backend client.  `model` and `api_key` are the
constructor arguments used in create_model_client (src/main.py); `complete`
is the backend collaborator of the spec
(`complete(transcript, persona) -> text`, failing with a backend error),
injected here as a deterministic stub. -/
structure OpenAIChatCompletionClient where
  model : String
  api_key : String
  complete : List Message → String → Except String String

mutual

/-- Modelled from the spec: an agent is either a leaf (fixed persona,
delegates to the reasoning backend) or a composite (wraps an inner team and
summarizes its transcript with its own backend call).  The implementation
(AssistantAgent / SocietyOfMindAgent) lives in the external autogen
library, not in src/. -/
inductive Agent : Type where
  | leaf (name : String) (system_message : String)
      (respond : List Message → Except String String)
  | composite (name : String) (inner : Team)
      (summarize : List Message → Except String String)

/-- Modelled from the spec: a round-robin team owns an ordered participant
list, an optional termination condition and an optional maximum-turn bound
(RoundRobinGroupChat of the external autogen library). -/
inductive Team : Type where
  | mk (participants : List Agent)
      (termination_condition : Option TermCond)
      (max_turns : Option Nat)

end

def Team.participants : Team → List Agent
  | ⟨ps, _, _⟩ => ps

def Team.termination_condition : Team → Option TermCond
  | ⟨_, tc, _⟩ => tc

def Team.max_turns : Team → Option Nat
  | ⟨_, _, mt⟩ => mt

def Agent.name : Agent → String
  | .leaf nm _ _ => nm
  | .composite nm _ _ => nm

/-- Has the configured maximum number of agent turns been reached, given
the number of turns already taken? -/
def maxTurnsReached : Option Nat → Nat → Bool
  | none, _ => false
  | some m, taken => decide (m ≤ taken)

/-- The most recent content of a transcript (used as the inner task of a
composite agent's inner team, per spec §4.3 step 2). -/
def lastContent : List Message → String
  | [] => ""
  | [m] => m.content
  | _ :: m :: rest => lastContent (m :: rest)

/-- A run error: either the fuel bound of the shallow embedding was
exhausted, or an agent's backend call failed (BackendError of the spec,
which aborts the run without appending a partial message). -/
inductive RunErr where
  | outOfFuel
  | backend (msg : String)
deriving DecidableEq

mutual

/-- Modelled from the spec: a single turn of an agent.  A leaf agent wraps
the backend's text as one message authored under its own name; a composite
agent runs its inner team to termination on the most recent outer content
and collapses the inner transcript into exactly one message via its own
backend call, never exposing the inner transcript itself. -/
def Agent.respondMsg : Nat → Agent → List Message → Except RunErr Message
  | _, .leaf nm _sys f, tr =>
    match f tr with
    | .ok s => .ok ⟨nm, s⟩
    | .error e => .error (.backend e)
  | 0, .composite _ _ _, _ => .error .outOfFuel
  | fuel + 1, .composite nm inner summ, tr =>
    match Team.runT fuel inner (lastContent tr) with
    | .error e => .error e
    | .ok innerTr =>
      match summ innerTr with
      | .ok s => .ok ⟨nm, s⟩
      | .error e => .error (.backend e)

/-- Modelled from the spec: a team run appends the task as message #0
authored by the synthetic "user" identity, evaluates the termination
condition on it (a MaxMessages(1) team stops with the task alone), then
enters the round-robin turn loop. -/
def Team.runT : Nat → Team → String → Except RunErr (List Message)
  | 0, _, _ => .error .outOfFuel
  | fuel + 1, t, task =>
    let init : List Message := [⟨"user", task⟩]
    if evalCondO t.termination_condition init then .ok init
    else Team.loop fuel t init 0

/-- Modelled from the spec: the round-robin turn loop.  Stop when the
maximum-turn bound is reached (or with zero participants); otherwise invoke
the next participant in cyclic order, append its single message, re-evaluate
the termination condition, and continue.  Backend failures abort the run. -/
def Team.loop : Nat → Team → List Message → Nat → Except RunErr (List Message)
  | 0, _, _, _ => .error .outOfFuel
  | fuel + 1, t, tr, taken =>
    if maxTurnsReached t.max_turns taken then .ok tr
    else
      match t.participants.get? (taken % t.participants.length) with
      | none => .ok tr
      | some a =>
        match Agent.respondMsg fuel a tr with
        | .error e => .error e
        | .ok m =>
          let tr2 := tr ++ [m]
          if evalCondO t.termination_condition tr2 then .ok tr2
          else Team.loop fuel t tr2 (taken + 1)

end

-- Constants from src/main.py.
def MODEL_NAME : String := "gpt-5-mini-2025-08-07"
def MAX_INNER_MESSAGES : Nat := 6
def MAX_OUTER_TURNS : Nat := 2
def APPROVAL_KEYWORD : String := "APPROVE"
def EXIT_COMMANDS : List String := ["quit", "exit", "q", "bye"]

-- The three persona texts of src/main.py (module-level string constants).
-- Python's backslash line continuations inside the triple-quoted literals
-- are already joined here, as Python itself does.
def ZENTH_COACH_SYSTEM_MESSAGE : String := "
You are ZenTH ISO Standards Coach, a specialized Technical Auditor Agent for medical device standards.

## Your Core Expertise:
- **ISO 13485:2016**: Quality Management Systems for medical devices
- **IEC 62304:2006+A1:2015**: Medical device software lifecycle processes
- **IEC 82304-1:2016**: Health software standards
- **ISO 14971:2019**: Risk management for medical devices

## Your Responsibilities:
1. Provide expert guidance on compliance with medical device regulations
2. Assess documentation completeness and accuracy
3. Review risk management processes and traceability
4. Explain software safety classification (Class A, B, C)
5. Guide on quality management system implementation
6. Offer gap analysis and audit methodology advice

## Your Capabilities:
- Evaluate technical documentation and design controls
- Assess software architecture and validation evidence
- Provide guidance on SOUP (Software of Unknown Provenance) management
- Explain hazard identification techniques (FMEA, FTA, HAZOP)
- Guide on benefit-risk analysis and post-market surveillance
- Advise on global regulatory requirements (FDA, EU MDR, Health Canada)

## CRITICAL MEDICAL GUARDRAILS:
⚠️ Never provide diagnosis/treatment or device operation guidance.
If asked for clinical advice, respond:
\"I'm not a medical professional and can't provide clinical guidance. 
Please consult a qualified clinician or your organization's approved procedures.\"
Then offer relevant policy/training materials.

## Your Approach:
- Provide clear, actionable findings with specific standard clause references
- Balance technical thoroughness with practical business considerations
- Maintain objectivity and professional integrity
- Stay current with regulatory changes and state-of-the-art considerations

Respond professionally, technically accurate, and always prioritize patient safety.
"

def COMPLIANCE_REVIEWER_SYSTEM_MESSAGE : String := "
You are a Compliance Reviewer specializing in medical device regulations.

Your role:
1. Review ZenTH Coach's guidance for regulatory accuracy
2. Identify any missing regulatory considerations
3. Ensure alignment with FDA, EU MDR, and international standards
4. Flag potential compliance gaps or risks
5. Validate that all standard clauses are properly referenced

Provide critical feedback and validation. If the guidance is complete and accurate, respond with 'APPROVE'.
If improvements needed, specify exactly what's missing or incorrect.
"

def DOCUMENTATION_FORMATTER_SYSTEM_MESSAGE : String := "
You are a Documentation Formatter for medical device technical documentation.

Your role:
1. Format the guidance into clear, professional documentation
2. Structure information with proper headings and sections
3. Ensure traceability to relevant standard clauses
4. Add references and citations where appropriate
5. Make the content audit-ready and regulatory-compliant

Present the final output in a clear, professional format suitable for QMS documentation.
"

/-- The relevant process environment: the two variables src/main.py reads
(OPENAI_API_KEY in create_model_client, SINGLE_QUERY in main). -/
structure Env where
  openai_api_key : Option String
  single_query : Option String

/-- Python truthiness of an optional environment-variable string:
`if not x` is taken when the variable is unset or empty. -/
def pyFalsyStr : Option String → Bool
  | none => true
  | some s => s == ""

/-- The EnvironmentError message of create_model_client (src/main.py,
the two adjacent literals joined as Python joins them). -/
def ENVIRONMENT_ERROR_MESSAGE : String :=
  "OPENAI_API_KEY environment variable not set. Please set it before running the application."

/-- create_model_client from src/main.py: raises EnvironmentError when
OPENAI_API_KEY is unset or empty (Python `if not api_key`), otherwise
builds the shared client.  The `complete` stub stands for the network
behavior of the real client, which is an external collaborator. -/
def create_model_client (complete : List Message → String → Except String String)
    (env : Env) : Except String OpenAIChatCompletionClient :=
  if pyFalsyStr env.openai_api_key then Except.error ENVIRONMENT_ERROR_MESSAGE
  else Except.ok ⟨MODEL_NAME, env.openai_api_key.getD "", complete⟩

/-- create_zenth_coach_agent from src/main.py: an AssistantAgent with the
fixed name and persona, delegating to the shared client. -/
def create_zenth_coach_agent (model_client : OpenAIChatCompletionClient) : Agent :=
  Agent.leaf "ZenTH_ISO_Standards_Coach" ZENTH_COACH_SYSTEM_MESSAGE
    (fun tr => model_client.complete tr ZENTH_COACH_SYSTEM_MESSAGE)

/-- create_compliance_reviewer_agent from src/main.py. -/
def create_compliance_reviewer_agent (model_client : OpenAIChatCompletionClient) : Agent :=
  Agent.leaf "Compliance_Reviewer" COMPLIANCE_REVIEWER_SYSTEM_MESSAGE
    (fun tr => model_client.complete tr COMPLIANCE_REVIEWER_SYSTEM_MESSAGE)

/-- create_documentation_formatter_agent from src/main.py. -/
def create_documentation_formatter_agent (model_client : OpenAIChatCompletionClient) : Agent :=
  Agent.leaf "Documentation_Formatter" DOCUMENTATION_FORMATTER_SYSTEM_MESSAGE
    (fun tr => model_client.complete tr DOCUMENTATION_FORMATTER_SYSTEM_MESSAGE)

/-- create_standards_team from src/main.py: the inner team
[zenth_coach, compliance_reviewer] with termination
TextMentionTermination("APPROVE") | MaxMessageTermination(6) and no
max_turns. -/
def create_standards_team (zenth_coach compliance_reviewer : Agent) : Team :=
  ⟨[zenth_coach, compliance_reviewer],
   some (TermCond.orC (TermCond.textMention APPROVAL_KEYWORD)
     (TermCond.maxMessages MAX_INNER_MESSAGES)),
   none⟩

/-- create_final_team from src/main.py: the outer team
[society_of_mind, documentation_formatter] with max_turns = 2 and no
termination condition. -/
def create_final_team (society_of_mind documentation_formatter : Agent) : Team :=
  ⟨[society_of_mind, documentation_formatter], none, some MAX_OUTER_TURNS⟩

/-- Modelled from the spec: the summarization instruction a CompositeAgent
uses for its backend call over the inner transcript.  The concrete text is
a default of the external SocietyOfMindAgent implementation and is
immaterial to every claim. -/
def SOM_RESPONSE_PROMPT : String :=
  "Output a standalone response to the original request, without mentioning any of the intermediate discussion."

/-- Modelled from the spec: SocietyOfMindAgent (external autogen library)
wraps an entire inner team as one composite agent; on its turn it runs the
inner team to termination and collapses the inner transcript into a single
message via its own backend call. -/
def SocietyOfMindAgent (name : String) (team : Team)
    (model_client : OpenAIChatCompletionClient) : Agent :=
  Agent.composite name team
    (fun innerTr => model_client.complete innerTr SOM_RESPONSE_PROMPT)

/-- A deterministic always-succeeding stub backend built from a pure
completion function (the "deterministic stub backend" of the spec's
testable properties). -/
def okClient (f : List Message → String → String) : OpenAIChatCompletionClient :=
  ⟨MODEL_NAME, "sk-test", fun tr persona => Except.ok (f tr persona)⟩

/-- A concrete stub backend for the C2 scenario: "APPROVE" exactly when
called on a two-message transcript (the reviewer's first turn), guidance
text otherwise. -/
def c2Client : OpenAIChatCompletionClient :=
  ⟨MODEL_NAME, "sk-test", fun tr _persona =>
    if tr.length = 2 then Except.ok "APPROVE" else Except.ok "guidance text"⟩

/-- A stub backend that always fails. -/
def errClient : OpenAIChatCompletionClient :=
  ⟨MODEL_NAME, "sk-test", fun _ _ => Except.error "boom"⟩

/-- ASCII lowercasing of one character (the behavior of Python str.lower on
the ASCII inputs relevant to the exit keywords). -/
def lowerChar (c : Char) : Char :=
  if 65 ≤ c.toNat ∧ c.toNat ≤ 90 then Char.ofNat (c.toNat + 32) else c

/-- Python str.lower, character by character. -/
def lowerStr (s : String) : String :=
  ⟨s.data.map lowerChar⟩

/-- The whitespace characters Python str.strip removes. -/
def isPySpace (c : Char) : Bool :=
  (c.toNat == 32) || (c.toNat == 9) || (c.toNat == 10) || (c.toNat == 13) ||
    (c.toNat == 11) || (c.toNat == 12)

/-- Python str.strip on a character list: drop whitespace from both ends. -/
def stripL (l : List Char) : List Char :=
  ((l.dropWhile isPySpace).reverse.dropWhile isPySpace).reverse

/-- Python str.strip. -/
def stripStr (s : String) : String :=
  ⟨stripL s.data⟩

/-- Two characters are equal up to letter case. -/
def charCaseEq (a b : Char) : Bool := lowerChar a == lowerChar b

/-- Two character lists are equal up to letter case, position by
position. -/
def caseEquivL : List Char → List Char → Bool
  | [], [] => true
  | a :: as, b :: bs => charCaseEq a b && caseEquivL as bs
  | _, _ => false

/-- Two strings are case variants of each other: same characters up to
letter case. -/
def caseEquiv (s t : String) : Bool := caseEquivL s.data t.data

/-- get_user_input from src/main.py.  The argument is the raw line read
from stdin (none models EOFError/KeyboardInterrupt).  The code strips the
line, returns None on an empty result, returns None when the lowercased
form is one of EXIT_COMMANDS, and otherwise returns the stripped query. -/
def get_user_input (line : Option String) : Option String :=
  match line with
  | none => none
  | some raw =>
    let user_query := stripStr raw
    if user_query = "" then none
    else if EXIT_COMMANDS.contains (lowerStr user_query) then none
    else some user_query

/-- run_consultation from src/main.py: runs the final team on the query and
streams the transcript; an exception is printed and re-raised, so the
outcome of the team run is returned unchanged, errors included. -/
def run_consultation (fuel : Nat) (final_team : Team) (query : String) :
    Except RunErr (List Message) :=
  Team.runT fuel final_team query

/-- The interactive while-loop of interactive_session (src/main.py lines
352-364): read a line, break when get_user_input returns None, otherwise
run a consultation on the returned query; a consultation error is caught,
printed, and the loop continues with the next question. -/
def interactive_loop (fuel : Nat) (final_team : Team) :
    List (Option String) → List (String × Except RunErr (List Message))
  | [] => []
  | line :: rest =>
    match get_user_input line with
    | none => []
    | some query =>
      (query, run_consultation fuel final_team query) ::
        interactive_loop fuel final_team rest

/-- The queries the interactive loop accepts from a list of raw input
lines: the prefix of get_user_input results up to the first None. -/
def acceptedQueries : List (Option String) → List String
  | [] => []
  | line :: rest =>
    match get_user_input line with
    | none => []
    | some q => q :: acceptedQueries rest

/-- The team-construction sequence of interactive_session (src/main.py
lines 330-350): agents, inner standards team, SocietyOfMindAgent wrapper,
final team, all from the one shared client. -/
def interactive_session_final_team (model_client : OpenAIChatCompletionClient) : Team :=
  let zenth_coach := create_zenth_coach_agent model_client
  let compliance_reviewer := create_compliance_reviewer_agent model_client
  let documentation_formatter := create_documentation_formatter_agent model_client
  let standards_team := create_standards_team zenth_coach compliance_reviewer
  let society_of_mind := SocietyOfMindAgent "Medical_Standards_SoM" standards_team model_client
  create_final_team society_of_mind documentation_formatter

/-- The team-construction sequence of run_single_query (src/main.py lines
380-402). -/
def run_single_query_final_team (model_client : OpenAIChatCompletionClient) : Team :=
  let zenth_coach := create_zenth_coach_agent model_client
  let compliance_reviewer := create_compliance_reviewer_agent model_client
  let documentation_formatter := create_documentation_formatter_agent model_client
  let standards_team := create_standards_team zenth_coach compliance_reviewer
  let society_of_mind := SocietyOfMindAgent "Medical_Standards_SoM" standards_team model_client
  create_final_team society_of_mind documentation_formatter

/-- An error propagating out of a top-level entry function (only
run_single_query re-raises; interactive_session catches everything). -/
inductive ProcError where
  | environment_error (msg : String)
  | consultation_error (e : RunErr)
deriving DecidableEq

/-- The observable outcome of interactive_session: whether the final team
was ever constructed, the consultations run (query and result, in order),
the configuration error printed by the `except EnvironmentError` handler if
any, and the error propagating out of the function (always none: every
exception is caught at src/main.py lines 359-369). -/
structure SessionOutcome where
  team_built : Bool
  consultations : List (String × Except RunErr (List Message))
  config_error_printed : Option String
  propagated : Option ProcError

/-- interactive_session from src/main.py: build the client, agents and the
final team once, then loop over user inputs reusing the same team object;
an EnvironmentError from create_model_client is caught and printed before
any agent or team is constructed, ending the session. -/
def interactive_session (fuel : Nat)
    (complete : List Message → String → Except String String)
    (env : Env) (inputs : List (Option String)) : SessionOutcome :=
  match create_model_client complete env with
  | .error e => ⟨false, [], some e, none⟩
  | .ok model_client =>
    let final_team := interactive_session_final_team model_client
    ⟨true, interactive_loop fuel final_team inputs, none, none⟩

/-- The observable outcome of run_single_query: whether the final team was
constructed, the single consultation (if reached) and the error the
function re-raises (src/main.py lines 406-408 print and re-raise). -/
structure SingleQueryOutcome where
  team_built : Bool
  consultation : Option (String × Except RunErr (List Message))
  propagated : Option ProcError

/-- run_single_query from src/main.py: build the client and team, run
exactly one consultation with the given query, and re-raise any error
(EnvironmentError from create_model_client included). -/
def run_single_query (fuel : Nat)
    (complete : List Message → String → Except String String)
    (env : Env) (query : String) : SingleQueryOutcome :=
  match create_model_client complete env with
  | .error e => ⟨false, none, some (ProcError.environment_error e)⟩
  | .ok model_client =>
    let final_team := run_single_query_final_team model_client
    match run_consultation fuel final_team query with
    | .error e => ⟨true, some (query, Except.error e), some (ProcError.consultation_error e)⟩
    | .ok tr => ⟨true, some (query, Except.ok tr), none⟩

/-- Which mode main selected and its outcome. -/
inductive MainResult where
  | single (r : SingleQueryOutcome)
  | interactive (r : SessionOutcome)

/-- main from src/main.py (named mainEntry here because Lean reserves
`main` for executable entry points): if the SINGLE_QUERY environment
variable is truthy (set and non-empty) run a single query with it,
otherwise run the interactive session over the stdin lines. -/
def mainEntry (fuel : Nat)
    (complete : List Message → String → Except String String)
    (env : Env) (inputs : List (Option String)) : MainResult :=
  match env.single_query with
  | none => MainResult.interactive (interactive_session fuel complete env inputs)
  | some q =>
    if q = "" then MainResult.interactive (interactive_session fuel complete env inputs)
    else MainResult.single (run_single_query fuel complete env q)

-- ---------------------------------------------------------------------
-- Scheduler lemmas
-- ---------------------------------------------------------------------

lemma runT_succ (fuel : Nat) (t : Team) (task : String) :
    Team.runT (fuel + 1) t task =
      (if evalCondO t.termination_condition [⟨"user", task⟩] then
        Except.ok [⟨"user", task⟩]
      else Team.loop fuel t [⟨"user", task⟩] 0) := rfl

lemma loop_succ (fuel : Nat) (t : Team) (tr : List Message) (taken : Nat) :
    Team.loop (fuel + 1) t tr taken =
      (if maxTurnsReached t.max_turns taken then Except.ok tr
      else
        match t.participants.get? (taken % t.participants.length) with
        | none => Except.ok tr
        | some a =>
          match Agent.respondMsg fuel a tr with
          | .error e => Except.error e
          | .ok m =>
            if evalCondO t.termination_condition (tr ++ [m]) then Except.ok (tr ++ [m])
            else Team.loop fuel t (tr ++ [m]) (taken + 1)) := rfl

lemma respond_leaf (fuel : Nat) (nm sys : String)
    (f : List Message → Except String String) (tr : List Message) :
    Agent.respondMsg fuel (Agent.leaf nm sys f) tr =
      (match f tr with
      | .ok s => Except.ok ⟨nm, s⟩
      | .error e => Except.error (RunErr.backend e)) := by
  cases fuel <;> rfl

lemma respond_composite (fuel : Nat) (nm : String) (inner : Team)
    (summ : List Message → Except String String) (tr : List Message) :
    Agent.respondMsg (fuel + 1) (Agent.composite nm inner summ) tr =
      (match Team.runT fuel inner (lastContent tr) with
      | .error e => Except.error e
      | .ok innerTr =>
        match summ innerTr with
        | .ok s => Except.ok ⟨nm, s⟩
        | .error e => Except.error (RunErr.backend e)) := rfl

/-- An agent that always produces a message: a leaf whose backend stub
never fails. -/
def Agent.alwaysOk : Agent → Prop
  | .leaf _ _ f => ∀ tr, ∃ s, f tr = Except.ok s
  | .composite _ _ _ => False

/-- A backend client whose completion stub never fails (a deterministic
stub backend in the sense of the spec's testable properties). -/
def ClientTotal (c : OpenAIChatCompletionClient) : Prop :=
  ∀ tr persona, ∃ s, c.complete tr persona = Except.ok s

/-- If every participant is an always-succeeding leaf, the termination
condition is forced once the transcript reaches n messages, and there is no
max-turns bound, then the round-robin loop completes within the fuel
budget. -/
lemma loop_term (n : Nat) : ∀ (fuel : Nat) (t : Team) (tr : List Message) (taken : Nat),
    (∀ l : List Message, n ≤ l.length → evalCondO t.termination_condition l = true) →
    t.max_turns = none →
    0 < t.participants.length →
    (∀ a ∈ t.participants, a.alwaysOk) →
    1 ≤ fuel → n ≤ tr.length + fuel →
    ∃ out, Team.loop fuel t tr taken = Except.ok out := by
  intro fuel
  induction fuel with
  | zero => intro t tr taken _ _ _ _ h1 _; omega
  | succ m ih =>
    intro t tr taken hcond hmt hpos hok _ hn
    rw [loop_succ, hmt]
    have hlt : taken % t.participants.length < t.participants.length :=
      Nat.mod_lt _ hpos
    rw [List.get?_eq_get hlt]
    have hmem : t.participants.get ⟨taken % t.participants.length, hlt⟩ ∈ t.participants :=
      List.get_mem _ _ _
    generalize hA : t.participants.get ⟨taken % t.participants.length, hlt⟩ = a at hmem
    have hA2 := hok a hmem
    cases a with
    | composite nm inner summ => exact absurd hA2 id
    | leaf nm sys f =>
      obtain ⟨s, hs⟩ := hA2 tr
      simp only [maxTurnsReached, Bool.false_eq_true, if_false, respond_leaf, hs]
      have hlen : (tr ++ [(⟨nm, s⟩ : Message)]).length = tr.length + 1 := by simp
      by_cases hstop : evalCondO t.termination_condition (tr ++ [⟨nm, s⟩]) = true
      · rw [if_pos hstop]
        exact ⟨_, rfl⟩
      · rw [if_neg hstop]
        have hlt2 : (tr ++ [(⟨nm, s⟩ : Message)]).length < n := by
          rcases Nat.lt_or_ge (tr ++ [(⟨nm, s⟩ : Message)]).length n with h | h
          · exact h
          · exact absurd (hcond _ h) hstop
        exact ih t (tr ++ [⟨nm, s⟩]) (taken + 1) hcond hmt hpos hok (by omega) (by omega)

/-- The inner standards team always completes a run within any fuel budget
of at least 6, whatever text the (never-failing) backend produces: the
MaxMessages(6) branch of its OR condition forces termination. -/
lemma standards_team_runs (c : OpenAIChatCompletionClient) (hc : ClientTotal c)
    (task : String) (fuel : Nat) (hf : 6 ≤ fuel) :
    ∃ out, Team.runT fuel
      (create_standards_team (create_zenth_coach_agent c) (create_compliance_reviewer_agent c))
      task = Except.ok out := by
  obtain ⟨k, rfl⟩ : ∃ k, fuel = k + 6 := ⟨fuel - 6, by omega⟩
  rw [show k + 6 = (k + 5) + 1 from rfl, runT_succ]
  have hcond : ∀ l : List Message, 6 ≤ l.length →
      evalCondO (create_standards_team (create_zenth_coach_agent c)
        (create_compliance_reviewer_agent c)).termination_condition l = true := by
    intro l hl
    simp [create_standards_team, Team.termination_condition, evalCondO, evalCond,
      MAX_INNER_MESSAGES, hl]
  by_cases h0 : evalCondO (create_standards_team (create_zenth_coach_agent c)
      (create_compliance_reviewer_agent c)).termination_condition [⟨"user", task⟩] = true
  · rw [if_pos h0]
    exact ⟨_, rfl⟩
  · rw [if_neg h0]
    refine loop_term 6 (k + 5) _ _ 0 hcond rfl (by simp [create_standards_team, Team.participants]) ?_ (by omega) (by simp; omega)
    intro a ha
    simp only [create_standards_team, Team.participants, List.mem_cons,
      List.mem_singleton, List.not_mem_nil, or_false] at ha
    rcases ha with rfl | rfl
    · exact fun tr => hc tr ZENTH_COACH_SYSTEM_MESSAGE
    · exact fun tr => hc tr COMPLIANCE_REVIEWER_SYSTEM_MESSAGE

/-- The final team built by both entry points, written out as an explicit
team value. -/
lemma ift_parts (c : OpenAIChatCompletionClient) :
    interactive_session_final_team c = Team.mk
      [Agent.composite "Medical_Standards_SoM"
          (create_standards_team (create_zenth_coach_agent c) (create_compliance_reviewer_agent c))
          (fun innerTr => c.complete innerTr SOM_RESPONSE_PROMPT),
        Agent.leaf "Documentation_Formatter" DOCUMENTATION_FORMATTER_SYSTEM_MESSAGE
          (fun tr => c.complete tr DOCUMENTATION_FORMATTER_SYSTEM_MESSAGE)]
      none (some 2) := rfl

/-- With a never-failing deterministic backend, any sufficiently fueled run
of the final team produces exactly the task message, one SocietyOfMind
summary message and one formatter message, in that order. -/
lemma final_team_run_shape (c : OpenAIChatCompletionClient) (hc : ClientTotal c)
    (task : String) (fuel : Nat) (hf : 9 ≤ fuel) :
    ∃ s₁ s₂, Team.runT fuel (interactive_session_final_team c) task =
      Except.ok [⟨"user", task⟩, ⟨"Medical_Standards_SoM", s₁⟩,
        ⟨"Documentation_Formatter", s₂⟩] := by
  obtain ⟨k, rfl⟩ : ∃ k, fuel = k + 9 := ⟨fuel - 9, by omega⟩
  obtain ⟨innerTr, hinner⟩ := standards_team_runs c hc task (k + 6) (by omega)
  obtain ⟨s₁, hs₁⟩ := hc innerTr SOM_RESPONSE_PROMPT
  obtain ⟨s₂, hs₂⟩ := hc [⟨"user", task⟩, ⟨"Medical_Standards_SoM", s₁⟩]
    DOCUMENTATION_FORMATTER_SYSTEM_MESSAGE
  refine ⟨s₁, s₂, ?_⟩
  rw [ift_parts, show k + 9 = (k + 8) + 1 from rfl, runT_succ]
  simp only [Team.termination_condition, evalCondO, Bool.false_eq_true, if_false]
  rw [show k + 8 = (k + 7) + 1 from rfl, loop_succ,
    show k + 7 = (k + 6) + 1 from rfl]
  simp [Team.termination_condition, Team.max_turns, Team.participants,
    maxTurnsReached, evalCondO, respond_composite, lastContent, hinner, hs₁]
  rw [loop_succ, show k + 6 = (k + 5) + 1 from rfl]
  simp [Team.termination_condition, Team.max_turns, Team.participants,
    maxTurnsReached, evalCondO, respond_leaf, hs₂]
  rw [loop_succ]
  simp [Team.max_turns, maxTurnsReached]

/-- Any always-ok pure stub backend is total. -/
lemma okClient_total (f : List Message → String → String) : ClientTotal (okClient f) :=
  fun tr persona => ⟨f tr persona, rfl⟩

/-- C1: every run of the final outer team (participants
[Medical_Standards_SoM, Documentation_Formatter], max_turns = 2, no outer
termination condition) with a never-failing deterministic stub backend
yields an outer transcript of exactly 3 messages — the task message, one
SocietyOfMindAgent summary, one Documentation_Formatter message, in that
order — irrespective of what the inner standards team does internally. -/
theorem C1_outer_run_exactly_three_messages (c : OpenAIChatCompletionClient)
    (hc : ClientTotal c) (task : String) (fuel : Nat) (hf : 9 ≤ fuel) :
    ∃ tr, Team.runT fuel (interactive_session_final_team c) task = Except.ok tr ∧
      tr.length = 3 ∧
      tr.map Message.source = ["user", "Medical_Standards_SoM", "Documentation_Formatter"] ∧
      (tr.get? 0).map Message.content = some task := by
  obtain ⟨s₁, s₂, h⟩ := final_team_run_shape c hc task fuel hf
  exact ⟨_, h, rfl, rfl, rfl⟩

/-- Witness for C1 at a concrete stub backend, task and fuel. -/
theorem C1_outer_run_exactly_three_messages_witness :
    ∃ tr, Team.runT 9 (interactive_session_final_team (okClient (fun _ _ => "guidance text")))
        "How do I document SOUP?" = Except.ok tr ∧
      tr.length = 3 ∧
      tr.map Message.source = ["user", "Medical_Standards_SoM", "Documentation_Formatter"] ∧
      (tr.get? 0).map Message.content = some "How do I document SOUP?" :=
  C1_outer_run_exactly_three_messages (okClient (fun _ _ => "guidance text"))
    (okClient_total _) "How do I document SOUP?" 9 (by omega)

/-- C2: with stubs where the coach answers guidance text free of "APPROVE"
and the reviewer answers "APPROVE" on its first turn (and a task that does
not itself mention "APPROVE"), the inner standards team terminates after
exactly 3 messages — task, one coach turn, one reviewer turn — and every
agent message at 1-indexed turn i is authored by participant (i-1) mod 2
of [ZenTH_ISO_Standards_Coach, Compliance_Reviewer]. -/
theorem C2_inner_team_three_message_run (c : OpenAIChatCompletionClient)
    (task g : String)
    (htask : containsSubstr task APPROVAL_KEYWORD = false)
    (hcoach : c.complete [⟨"user", task⟩] ZENTH_COACH_SYSTEM_MESSAGE = Except.ok g)
    (hg : containsSubstr g APPROVAL_KEYWORD = false)
    (hrev : c.complete [⟨"user", task⟩, ⟨"ZenTH_ISO_Standards_Coach", g⟩]
      COMPLIANCE_REVIEWER_SYSTEM_MESSAGE = Except.ok "APPROVE")
    (fuel : Nat) (hf : 3 ≤ fuel) :
    Team.runT fuel
        (create_standards_team (create_zenth_coach_agent c) (create_compliance_reviewer_agent c))
        task =
      Except.ok [⟨"user", task⟩, ⟨"ZenTH_ISO_Standards_Coach", g⟩,
        ⟨"Compliance_Reviewer", "APPROVE"⟩] ∧
    (∀ i m, ([⟨"user", task⟩, ⟨"ZenTH_ISO_Standards_Coach", g⟩,
        ⟨"Compliance_Reviewer", "APPROVE"⟩] : List Message).get? i = some m → 1 ≤ i →
      some m.source =
        (["ZenTH_ISO_Standards_Coach", "Compliance_Reviewer"] : List String).get? ((i - 1) % 2)) := by
  have happ : containsSubstr "APPROVE" APPROVAL_KEYWORD = true := rfl
  constructor
  · obtain ⟨k, rfl⟩ : ∃ k, fuel = k + 3 := ⟨fuel - 3, by omega⟩
    rw [show k + 3 = (k + 2) + 1 from rfl, runT_succ]
    simp only [create_standards_team, create_zenth_coach_agent, create_compliance_reviewer_agent,
      Team.termination_condition, evalCondO, evalCond, List.any_cons, List.any_nil,
      MAX_INNER_MESSAGES]
    simp [htask]
    rw [loop_succ]
    simp [Team.termination_condition, Team.max_turns, Team.participants,
      maxTurnsReached, evalCondO, evalCond, respond_leaf, hcoach, htask, hg,
      MAX_INNER_MESSAGES]
    rw [loop_succ]
    simp [Team.termination_condition, Team.max_turns, Team.participants,
      maxTurnsReached, evalCondO, evalCond, respond_leaf, hrev, htask, hg, happ,
      MAX_INNER_MESSAGES]
  · intro i m hm h1
    match i, hm with
    | 1, hm => simp at hm; simp [← hm]
    | 2, hm => simp at hm; simp [← hm]
    | (n + 3), hm => simp at hm

/-- Witness for C2 at a concrete stub backend, task and fuel. -/
theorem C2_inner_team_three_message_run_witness :
    Team.runT 3
        (create_standards_team (create_zenth_coach_agent c2Client)
          (create_compliance_reviewer_agent c2Client))
        "What is IEC 62304?" =
      Except.ok [⟨"user", "What is IEC 62304?"⟩,
        ⟨"ZenTH_ISO_Standards_Coach", "guidance text"⟩,
        ⟨"Compliance_Reviewer", "APPROVE"⟩] ∧
    (∀ i m, ([⟨"user", "What is IEC 62304?"⟩,
        ⟨"ZenTH_ISO_Standards_Coach", "guidance text"⟩,
        ⟨"Compliance_Reviewer", "APPROVE"⟩] : List Message).get? i = some m → 1 ≤ i →
      some m.source =
        (["ZenTH_ISO_Standards_Coach", "Compliance_Reviewer"] : List String).get? ((i - 1) % 2)) :=
  C2_inner_team_three_message_run c2Client "What is IEC 62304?" "guidance text"
    rfl rfl rfl rfl 3 (by omega)

/-- C3: in every successful run of the outer team, the SocietyOfMindAgent
(Medical_Standards_SoM), which takes exactly one outer turn, contributes
exactly one message to the outer transcript — never more — and no message
of the inner team (ZenTH_ISO_Standards_Coach or Compliance_Reviewer) ever
appears in the outer transcript. -/
theorem C3_composite_opaque_single_message (c : OpenAIChatCompletionClient)
    (hc : ClientTotal c) (task : String) (fuel : Nat) (hf : 9 ≤ fuel) :
    ∃ tr, Team.runT fuel (interactive_session_final_team c) task = Except.ok tr ∧
      (tr.filter (fun m => m.source == "Medical_Standards_SoM")).length = 1 ∧
      (∀ m ∈ tr, m.source ≠ "ZenTH_ISO_Standards_Coach" ∧ m.source ≠ "Compliance_Reviewer") := by
  obtain ⟨s₁, s₂, h⟩ := final_team_run_shape c hc task fuel hf
  refine ⟨_, h, by simp, ?_⟩
  intro m hm
  simp only [List.mem_cons, List.not_mem_nil, or_false] at hm
  rcases hm with rfl | rfl | rfl <;> exact ⟨by simp, by simp⟩

/-- Witness for C3 at a concrete stub backend, task and fuel. -/
theorem C3_composite_opaque_single_message_witness :
    ∃ tr, Team.runT 9 (interactive_session_final_team (okClient (fun _ _ => "text")))
        "Explain risk management files." = Except.ok tr ∧
      (tr.filter (fun m => m.source == "Medical_Standards_SoM")).length = 1 ∧
      (∀ m ∈ tr, m.source ≠ "ZenTH_ISO_Standards_Coach" ∧ m.source ≠ "Compliance_Reviewer") :=
  C3_composite_opaque_single_message (okClient (fun _ _ => "text")) (okClient_total _)
    "Explain risk management files." 9 (by omega)

/-- C4: the interactive loop reuses one team object (and one
termination-condition value, whose evaluation is a pure function of the
transcript) across queries; running the same query twice through it with a
deterministic stub backend yields two consultations whose transcripts have
identical length and identical turn order, with no reset between runs. -/
theorem C4_repeat_run_same_length_and_order (c : OpenAIChatCompletionClient)
    (hc : ClientTotal c) (line : String) (q : String)
    (hline : get_user_input (some line) = some q)
    (fuel : Nat) (hf : 9 ≤ fuel) :
    ∃ tr₁ tr₂,
      interactive_loop fuel (interactive_session_final_team c) [some line, some line] =
        [(q, Except.ok tr₁), (q, Except.ok tr₂)] ∧
      tr₁.length = tr₂.length ∧
      tr₁.map Message.source = tr₂.map Message.source := by
  obtain ⟨s₁, s₂, h⟩ := final_team_run_shape c hc q fuel hf
  refine ⟨[⟨"user", q⟩, ⟨"Medical_Standards_SoM", s₁⟩, ⟨"Documentation_Formatter", s₂⟩],
    [⟨"user", q⟩, ⟨"Medical_Standards_SoM", s₁⟩, ⟨"Documentation_Formatter", s₂⟩],
    ?_, rfl, rfl⟩
  simp only [interactive_loop, hline, run_consultation, h]

/-- Witness for C4 at a concrete stub backend, input line and fuel. -/
theorem C4_repeat_run_same_length_and_order_witness :
    ∃ tr₁ tr₂,
      interactive_loop 9 (interactive_session_final_team (okClient (fun _ _ => "text")))
          [some "Audit advice", some "Audit advice"] =
        [("Audit advice", Except.ok tr₁), ("Audit advice", Except.ok tr₂)] ∧
      tr₁.length = tr₂.length ∧
      tr₁.map Message.source = tr₂.map Message.source :=
  C4_repeat_run_same_length_and_order (okClient (fun _ _ => "text")) (okClient_total _)
    "Audit advice" "Audit advice" rfl 9 (by omega)

/-- C10: interactive_session and run_single_query construct structurally
identical pipelines — the same agents, the same inner team and termination
condition, the same SocietyOfMindAgent wrapping and the same outer team —
so a query produces the same transcript length and turn order in either
mode under a deterministic stub backend. -/
theorem C10_both_modes_same_pipeline (c : OpenAIChatCompletionClient)
    (hc : ClientTotal c) (task : String) (fuel : Nat) (hf : 9 ≤ fuel) :
    interactive_session_final_team c = run_single_query_final_team c ∧
    Team.runT fuel (interactive_session_final_team c) task =
      Team.runT fuel (run_single_query_final_team c) task ∧
    ∃ tr, Team.runT fuel (run_single_query_final_team c) task = Except.ok tr ∧
      tr.length = 3 ∧
      tr.map Message.source = ["user", "Medical_Standards_SoM", "Documentation_Formatter"] := by
  obtain ⟨s₁, s₂, h⟩ := final_team_run_shape c hc task fuel hf
  exact ⟨rfl, rfl, _, h, rfl, rfl⟩

/-- Witness for C10 at a concrete stub backend, task and fuel. -/
theorem C10_both_modes_same_pipeline_witness :
    interactive_session_final_team (okClient (fun _ _ => "t")) =
      run_single_query_final_team (okClient (fun _ _ => "t")) ∧
    Team.runT 9 (interactive_session_final_team (okClient (fun _ _ => "t"))) "q" =
      Team.runT 9 (run_single_query_final_team (okClient (fun _ _ => "t"))) "q" ∧
    ∃ tr, Team.runT 9 (run_single_query_final_team (okClient (fun _ _ => "t"))) "q" =
        Except.ok tr ∧
      tr.length = 3 ∧
      tr.map Message.source = ["user", "Medical_Standards_SoM", "Documentation_Formatter"] :=
  C10_both_modes_same_pipeline (okClient (fun _ _ => "t")) (okClient_total _) "q" 9 (by omega)

/-- C5: when OPENAI_API_KEY is unset or empty, the EnvironmentError of
create_model_client is raised before any agent or team is constructed and
no consultation runs, in both modes: interactive_session ends immediately
reporting the configuration error, and run_single_query re-raises it so
that it propagates out of the process entry point. -/
theorem C5_missing_api_key_aborts (fuel : Nat)
    (complete : List Message → String → Except String String)
    (env : Env) (inputs : List (Option String)) (query : String)
    (hkey : pyFalsyStr env.openai_api_key = true) :
    interactive_session fuel complete env inputs =
      ⟨false, [], some ENVIRONMENT_ERROR_MESSAGE, none⟩ ∧
    run_single_query fuel complete env query =
      ⟨false, none, some (ProcError.environment_error ENVIRONMENT_ERROR_MESSAGE)⟩ := by
  constructor <;>
    simp [interactive_session, run_single_query, create_model_client, hkey]

/-- Witness for C5 with the variable unset. -/
theorem C5_missing_api_key_aborts_witness :
    interactive_session 9 (fun _ _ => Except.ok "t") ⟨none, none⟩ [some "q"] =
      ⟨false, [], some ENVIRONMENT_ERROR_MESSAGE, none⟩ ∧
    run_single_query 9 (fun _ _ => Except.ok "t") ⟨none, none⟩ "q" =
      ⟨false, none, some (ProcError.environment_error ENVIRONMENT_ERROR_MESSAGE)⟩ :=
  C5_missing_api_key_aborts 9 (fun _ _ => Except.ok "t") ⟨none, none⟩ [some "q"] "q" rfl

/-- C6: an error during a consultation is not swallowed by
run_consultation (the run's error is its result, as the code re-raises
after printing), and the interactive loop catches it per query and
continues with the remaining input instead of ending the session. -/
theorem C6_consultation_error_not_swallowed (fuel : Nat) (team : Team)
    (line : Option String) (q : String) (rest : List (Option String)) (e : RunErr)
    (hline : get_user_input line = some q)
    (herr : Team.runT fuel team q = Except.error e) :
    run_consultation fuel team q = Except.error e ∧
    interactive_loop fuel team (line :: rest) =
      (q, Except.error e) :: interactive_loop fuel team rest := by
  refine ⟨herr, ?_⟩
  simp [interactive_loop, hline, run_consultation, herr]

/-- Witness for C6 at a concrete failing backend. -/
theorem C6_consultation_error_not_swallowed_witness :
    run_consultation 9 (interactive_session_final_team errClient) "hi" =
      Except.error (RunErr.backend "boom") ∧
    interactive_loop 9 (interactive_session_final_team errClient) [some "hi", some "next"] =
      ("hi", Except.error (RunErr.backend "boom")) ::
        interactive_loop 9 (interactive_session_final_team errClient) [some "next"] :=
  C6_consultation_error_not_swallowed 9 (interactive_session_final_team errClient)
    (some "hi") "hi" [some "next"] (RunErr.backend "boom") rfl rfl

/-- The queries the interactive loop runs are exactly the accepted input
lines, in order, whatever each consultation's outcome is. -/
lemma interactive_loop_queries (fuel : Nat) (t : Team) :
    ∀ l, (interactive_loop fuel t l).map Prod.fst = acceptedQueries l := by
  intro l
  induction l with
  | nil => rfl
  | cons hd tl ih =>
    cases h : get_user_input hd <;>
      simp [interactive_loop, acceptedQueries, h, ih]

/-- C7: mainEntry selects the mode from SINGLE_QUERY: when it is set and
non-empty, exactly one consultation is run with it as the task and the
input lines are never consulted; otherwise the interactive session runs,
feeding each accepted input line as the task of a consultation. -/
theorem C7_mode_selection (fuel : Nat)
    (complete : List Message → String → Except String String)
    (env : Env) (inputs : List (Option String)) :
    (∀ q, env.single_query = some q → q ≠ "" →
      mainEntry fuel complete env inputs =
        MainResult.single (run_single_query fuel complete env q) ∧
      (∀ inputs', mainEntry fuel complete env inputs' = mainEntry fuel complete env inputs) ∧
      (pyFalsyStr env.openai_api_key = false →
        ∃ r, (run_single_query fuel complete env q).consultation = some (q, r))) ∧
    (pyFalsyStr env.single_query = true →
      mainEntry fuel complete env inputs =
        MainResult.interactive (interactive_session fuel complete env inputs) ∧
      (pyFalsyStr env.openai_api_key = false →
        (interactive_session fuel complete env inputs).consultations.map Prod.fst =
          acceptedQueries inputs)) := by
  constructor
  · intro q hq hne
    refine ⟨by simp [mainEntry, hq, hne], fun inputs' => by simp [mainEntry, hq, hne], ?_⟩
    intro hkey
    cases hrc : run_consultation fuel (run_single_query_final_team
        ⟨MODEL_NAME, env.openai_api_key.getD "", complete⟩) q with
    | error e => exact ⟨Except.error e, by simp [run_single_query, create_model_client, hkey, hrc]⟩
    | ok tr => exact ⟨Except.ok tr, by simp [run_single_query, create_model_client, hkey, hrc]⟩
  · intro hsq
    have hmode : mainEntry fuel complete env inputs =
        MainResult.interactive (interactive_session fuel complete env inputs) := by
      cases hq : env.single_query with
      | none => simp [mainEntry, hq]
      | some s =>
        rw [hq] at hsq
        simp only [pyFalsyStr, beq_iff_eq] at hsq
        simp [mainEntry, hq, hsq]
    refine ⟨hmode, ?_⟩
    intro hkey
    simp [interactive_session, create_model_client, hkey, interactive_loop_queries]

/-- Witness for C7 at a concrete environment with SINGLE_QUERY set. -/
theorem C7_mode_selection_witness :
    mainEntry 9 (fun _ _ => Except.ok "t") ⟨some "sk", some "Q1"⟩ [some "x"] =
      MainResult.single (run_single_query 9 (fun _ _ => Except.ok "t") ⟨some "sk", some "Q1"⟩ "Q1") ∧
    ∃ r, (run_single_query 9 (fun _ _ => Except.ok "t")
      ⟨some "sk", some "Q1"⟩ "Q1").consultation = some ("Q1", r) :=
  ⟨((C7_mode_selection 9 (fun _ _ => Except.ok "t") ⟨some "sk", some "Q1"⟩ [some "x"]).1
      "Q1" rfl (by decide)).1,
   ((C7_mode_selection 9 (fun _ _ => Except.ok "t") ⟨some "sk", some "Q1"⟩ [some "x"]).1
      "Q1" rfl (by decide)).2.2 rfl⟩

/-- C9: an empty or whitespace-only input line makes get_user_input return
None, and the interactive loop treats that None as session exit: the
session ends there, exactly as for an exit keyword, and later lines are
never consulted. -/
theorem C9_blank_line_ends_session (s : String) (rest : List (Option String))
    (fuel : Nat) (team : Team) (hblank : stripStr s = "") :
    get_user_input (some s) = none ∧
    interactive_loop fuel team (some s :: rest) = [] := by
  have h1 : get_user_input (some s) = none := by
    simp [get_user_input, hblank]
  exact ⟨h1, by simp [interactive_loop, h1]⟩

/-- Witness for C9 at a concrete whitespace-only line followed by a real
question that is consequently never consulted. -/
theorem C9_blank_line_ends_session_witness :
    get_user_input (some "   ") = none ∧
    interactive_loop 9 (interactive_session_final_team errClient)
      [some "   ", some "real question"] = [] :=
  C9_blank_line_ends_session "   " [some "real question"] 9
    (interactive_session_final_team errClient) rfl

lemma char_toNat_ofNat (n : Nat) (h : n < 55296) : (Char.ofNat n).toNat = n := by
  have hv : n.isValidChar := Or.inl h
  simp only [Char.ofNat, hv, dif_pos, Char.ofNatAux, Char.toNat]
  simp [UInt32.toNat, BitVec.toNat_ofNatLt]

lemma not_space_of_ge (c : Char) (h : 33 ≤ c.toNat) : isPySpace c = false := by
  simp only [isPySpace, Bool.or_eq_false_iff, beq_eq_false_iff_ne, ne_eq]
  omega

/-- Characters equal up to case are whitespace together or not at all. -/
lemma lowerChar_space_eq (a b : Char) (h : lowerChar a = lowerChar b) :
    isPySpace a = isPySpace b := by
  simp only [lowerChar] at h
  by_cases ha : 65 ≤ a.toNat ∧ a.toNat ≤ 90 <;>
    by_cases hb : 65 ≤ b.toNat ∧ b.toNat ≤ 90
  · rw [not_space_of_ge a (by omega), not_space_of_ge b (by omega)]
  · rw [if_pos ha, if_neg hb] at h
    have hbn : b.toNat = a.toNat + 32 := by
      rw [← h, char_toNat_ofNat _ (by omega)]
    rw [not_space_of_ge a (by omega), not_space_of_ge b (by omega)]
  · rw [if_neg ha, if_pos hb] at h
    have han : a.toNat = b.toNat + 32 := by
      rw [h, char_toNat_ofNat _ (by omega)]
    rw [not_space_of_ge a (by omega), not_space_of_ge b (by omega)]
  · rw [if_neg ha, if_neg hb] at h
    rw [h]

lemma caseEquivL_nil_left {l : List Char} (h : caseEquivL [] l = true) : l = [] := by
  cases l with
  | nil => rfl
  | cons b bs => simp [caseEquivL] at h

lemma caseEquivL_map_lower : ∀ (l₁ l₂ : List Char), caseEquivL l₁ l₂ = true →
    l₁.map lowerChar = l₂.map lowerChar := by
  intro l₁
  induction l₁ with
  | nil => intro l₂ h; rw [caseEquivL_nil_left h]
  | cons a as ih =>
    intro l₂ h
    cases l₂ with
    | nil => simp [caseEquivL] at h
    | cons b bs =>
      simp only [caseEquivL, Bool.and_eq_true, charCaseEq, beq_iff_eq] at h
      simp [h.1, ih bs h.2]

lemma caseEquivL_dropWhile : ∀ (l₁ l₂ : List Char), caseEquivL l₁ l₂ = true →
    caseEquivL (l₁.dropWhile isPySpace) (l₂.dropWhile isPySpace) = true := by
  intro l₁
  induction l₁ with
  | nil => intro l₂ h; rw [caseEquivL_nil_left h]; rfl
  | cons a as ih =>
    intro l₂ h
    cases l₂ with
    | nil => simp [caseEquivL] at h
    | cons b bs =>
      simp only [caseEquivL, Bool.and_eq_true] at h
      have hsp : isPySpace a = isPySpace b :=
        lowerChar_space_eq a b (by
          have := h.1
          simpa [charCaseEq, beq_iff_eq] using this)
      by_cases hs : isPySpace a = true
      · rw [List.dropWhile_cons_of_pos hs,
          List.dropWhile_cons_of_pos (by rw [← hsp]; exact hs)]
        exact ih bs h.2
      · rw [List.dropWhile_cons_of_neg hs,
          List.dropWhile_cons_of_neg (by rw [← hsp]; exact hs)]
        simp [caseEquivL, h.1, h.2]

lemma caseEquivL_append : ∀ (xs ys us vs : List Char), caseEquivL xs ys = true →
    caseEquivL us vs = true → caseEquivL (xs ++ us) (ys ++ vs) = true := by
  intro xs
  induction xs with
  | nil => intro ys us vs h1 h2; rw [caseEquivL_nil_left h1]; simpa using h2
  | cons a as ih =>
    intro ys us vs h1 h2
    cases ys with
    | nil => simp [caseEquivL] at h1
    | cons b bs =>
      simp only [caseEquivL, Bool.and_eq_true] at h1
      simp only [List.cons_append, caseEquivL, Bool.and_eq_true]
      exact ⟨h1.1, ih bs us vs h1.2 h2⟩

lemma caseEquivL_reverse : ∀ (l₁ l₂ : List Char), caseEquivL l₁ l₂ = true →
    caseEquivL l₁.reverse l₂.reverse = true := by
  intro l₁
  induction l₁ with
  | nil => intro l₂ h; rw [caseEquivL_nil_left h]; rfl
  | cons a as ih =>
    intro l₂ h
    cases l₂ with
    | nil => simp [caseEquivL] at h
    | cons b bs =>
      simp only [caseEquivL, Bool.and_eq_true] at h
      simp only [List.reverse_cons]
      exact caseEquivL_append _ _ _ _ (ih bs h.2) (by simp [caseEquivL, h.1])

lemma caseEquivL_nil_iff : ∀ (l₁ l₂ : List Char), caseEquivL l₁ l₂ = true →
    (l₁ = [] ↔ l₂ = []) := by
  intro l₁ l₂ h
  cases l₁ with
  | nil => rw [caseEquivL_nil_left h]
  | cons a as =>
    cases l₂ with
    | nil => simp [caseEquivL] at h
    | cons b bs => simp

/-- Stripping and lowercasing identify case variants: they produce the same
lowered form and are empty together. -/
lemma caseEquiv_strip_lower (s t : String) (h : caseEquiv s t = true) :
    lowerStr (stripStr s) = lowerStr (stripStr t) ∧
    (stripStr s = "" ↔ stripStr t = "") := by
  have h1 : caseEquivL (stripL s.data) (stripL t.data) = true := by
    unfold stripL
    exact caseEquivL_reverse _ _ (caseEquivL_dropWhile _ _
      (caseEquivL_reverse _ _ (caseEquivL_dropWhile _ _ h)))
  constructor
  · exact congrArg String.mk (caseEquivL_map_lower _ _ h1)
  · have h2 := caseEquivL_nil_iff _ _ h1
    constructor
    · intro hs
      have hd : stripL s.data = [] := congrArg String.data hs
      exact congrArg String.mk (h2.mp hd)
    · intro ht
      have hd : stripL t.data = [] := congrArg String.data ht
      exact congrArg String.mk (h2.mpr hd)

/-- get_user_input returns None exactly for blank lines and exit
keywords. -/
lemma gui_none_iff (x : String) : get_user_input (some x) = none ↔
    (stripStr x = "" ∨ EXIT_COMMANDS.contains (lowerStr (stripStr x)) = true) := by
  by_cases h1 : stripStr x = ""
  · simp [get_user_input, h1]
  · by_cases h2 : EXIT_COMMANDS.contains (lowerStr (stripStr x)) = true
    · simp [get_user_input, h1, h2]
    · simp [get_user_input, h1, h2]

/-- C8: exit-keyword recognition is case-insensitive over the fixed set
EXIT_COMMANDS: any input whose stripped, lowercased form is one of
"quit", "exit", "q", "bye" makes get_user_input return None, and an input
is recognized (returns None) exactly when any case variant of it is. -/
theorem C8_exit_keywords_case_insensitive (s t : String)
    (hequiv : caseEquiv s t = true) :
    (EXIT_COMMANDS.contains (lowerStr (stripStr s)) = true →
      get_user_input (some s) = none) ∧
    (get_user_input (some s) = none ↔ get_user_input (some t) = none) := by
  obtain ⟨hL, hE⟩ := caseEquiv_strip_lower s t hequiv
  constructor
  · intro hmem
    rw [gui_none_iff]
    exact Or.inr hmem
  · rw [gui_none_iff, gui_none_iff, hL, hE]

/-- Witness for C8 at the case variant pair "QUIT" / "quit". -/
theorem C8_exit_keywords_case_insensitive_witness :
    (EXIT_COMMANDS.contains (lowerStr (stripStr "QUIT")) = true →
      get_user_input (some "QUIT") = none) ∧
    (get_user_input (some "QUIT") = none ↔ get_user_input (some "quit") = none) :=
  C8_exit_keywords_case_insensitive "QUIT" "quit" (by decide)
